import Mathlib

/-!
Verification development for the hikari entity-identity and caching core
(`hikari/core/model/user.py`, `hikari/errors.py`).

Raw payloads are JSON-like attribute mappings; we embed them as association
lists of `JValue`s.  Python's dictionary access and `int(...)` coercion are
embedded explicitly, with failure returned as an `Except` value whose error
type enumerates the exception kinds the code can raise (the builtin
`KeyError`, `ValueError`, `TypeError`) together with the two failure
conditions named by the specification (`MalformedPayload`,
`DuplicateBotIdentity`), so that statements can compare the two.
-/

namespace Hikari

/-- A JSON-like payload value.  Python's `None` and JSON `null` are both
`JValue.null`; a raw attribute mapping is `JValue.obj`. -/
inductive JValue where
  | str (s : String)
  | num (n : Int)
  | bool (b : Bool)
  | null
  | list (xs : List JValue)
  | obj (fields : List (String × JValue))

/-- A raw attribute mapping, as handed to the model layer by the transport. -/
abbrev Payload := List (String × JValue)

/-- Exception kinds.  `keyError`, `valueError` and `typeError` are the Python
builtins the source code can raise; `malformedPayload` and
`duplicateBotIdentity` are the failure conditions named by the specification
(`errors.py` defines neither). -/
inductive PyError where
  | keyError (k : String)
  | valueError
  | typeError
  | malformedPayload
  | duplicateBotIdentity
deriving DecidableEq

/-- True for the Python builtin exception kinds. -/
def PyError.isBuiltin : PyError → Bool
  | .keyError _ => true
  | .valueError => true
  | .typeError => true
  | _ => false

/-- First binding of key `k` in the mapping (Python dict lookup). -/
def plookup (p : Payload) (k : String) : Option JValue :=
  match p with
  | [] => none
  | (k2, v) :: rest => if k2 = k then some v else plookup rest k

/-- Python `payload[k]`: raises `KeyError` when the key is absent. -/
def pyGetItem (p : Payload) (k : String) : Except PyError JValue :=
  match plookup p k with
  | some v => .ok v
  | none => .error (.keyError k)

/-- Python `payload.get(k)`: the value, or `None` when absent. -/
def pyGet (p : Payload) (k : String) : JValue :=
  (plookup p k).getD .null

/-- Python `payload.get(k, d)`: the value, or the default `d` when absent. -/
def pyGetD (p : Payload) (k : String) (d : JValue) : JValue :=
  (plookup p k).getD d

/-- Accumulates a decimal numeral; `none` on the first non-digit. -/
def digitsToNatAux (acc : Nat) (l : List Char) : Option Nat :=
  match l with
  | [] => some acc
  | c :: rest =>
    if c.isDigit then digitsToNatAux (acc * 10 + (c.toNat - 48)) rest
    else none

/-- A non-empty all-digit numeral, as a `Nat`. -/
def digitsToNat? (l : List Char) : Option Nat :=
  match l with
  | [] => none
  | _ => digitsToNatAux 0 l

/-- A signed decimal numeral, as accepted by Python's `int(...)`. -/
def charsToInt? (l : List Char) : Option Int :=
  match l with
  | '-' :: rest => (digitsToNat? rest).map (fun n => -(n : Int))
  | '+' :: rest => (digitsToNat? rest).map (fun n => (n : Int))
  | _ => (digitsToNat? l).map (fun n => (n : Int))

/-- Python `int(s)` on a string: surrounding whitespace is ignored, an
optional sign precedes the digits. -/
def pyStrToInt? (s : String) : Option Int :=
  charsToInt?
    (((s.data.dropWhile Char.isWhitespace).reverse.dropWhile Char.isWhitespace).reverse)

/-- Python `int(v)`: numbers pass through, booleans coerce to 0/1, strings
are parsed (raising `ValueError` when unparsable), anything else raises
`TypeError`. -/
def pyInt (v : JValue) : Except PyError Int :=
  match v with
  | .num n => .ok n
  | .bool b => .ok (if b then 1 else 0)
  | .str s =>
    match pyStrToInt? s with
    | some n => .ok n
    | none => .error .valueError
  | _ => .error .typeError

/-- Python `int(payload[k])`, the coercion used for `id` and `discriminator`. -/
def intField (p : Payload) (k : String) : Except PyError Int :=
  match pyGetItem p k with
  | .error e => .error e
  | .ok v => pyInt v

/-- The Canonical User record (`User` in `user.py`).  `username`,
`avatar_hash` and `bot` store the raw payload value exactly as
`User.__init__` does (`payload.get` with no coercion), so an absent field is
`JValue.null` (Python `None`) and an absent `bot` is `JValue.bool false`. -/
structure User where
  id : Int
  username : JValue
  discriminator : Int
  avatar_hash : JValue
  bot : JValue

/-- `User.__init__(global_state, payload)`: `id` and `discriminator` are
coerced with `int(...)` (failing as Python does), the remaining fields take
the permissive defaults of `payload.get`.  Assignments are embedded in source
order. -/
def User.init (p : Payload) : Except PyError User :=
  match intField p "id" with
  | .error e => .error e
  | .ok i =>
    match intField p "discriminator" with
    | .error e => .error e
    | .ok d =>
      .ok { id := i, username := pyGet p "username", discriminator := d,
            avatar_hash := pyGet p "avatar", bot := pyGetD p "bot" (.bool false) }

/-- A timezone-aware instant.  Modelled from the spec: the module
`hikari.core.utils.dateutils` is not under `src/`; §6 requires ISO-8601
strings to parse to a timezone-aware instant, so the instant carries its
UTC offset explicitly (which is what makes it aware). -/
structure DateTime where
  year : Nat
  month : Nat
  day : Nat
  hour : Nat
  minute : Nat
  second : Nat
  offsetMinutes : Int
deriving DecidableEq

/-- Splits a character list at every occurrence of the separator `c`
(the separators themselves are dropped; n separators give n+1 groups). -/
def splitOnChar (c : Char) (l : List Char) : List (List Char) :=
  match l with
  | [] => [[]]
  | x :: rest =>
    match splitOnChar c rest with
    | [] => if x = c then [[], []] else [[x]]
    | g :: gs => if x = c then [] :: g :: gs else (x :: g) :: gs

/-- Parses an explicit UTC offset of the form `+HH:MM` or `-HH:MM`. -/
def parseOffsetChars (l : List Char) : Option Int :=
  match l with
  | [] => none
  | sg :: rest =>
    match splitOnChar ':' rest with
    | [hh, mm] =>
      match digitsToNat? hh, digitsToNat? mm with
      | some h, some m =>
        if sg = '+' then some ((h * 60 + m : Nat) : Int)
        else if sg = '-' then some (-((h * 60 + m : Nat) : Int))
        else none
      | _, _ => none
    | _ => none

/-- Splits the time portion of an ISO-8601 string into the clock part and the
UTC offset; a trailing `Z` means offset zero.  A string with no explicit
offset is rejected, since the result would not be timezone-aware. -/
def splitTimeOffsetChars (l : List Char) : Option (List Char × Int) :=
  match l.reverse with
  | 'Z' :: restRev => some (restRev.reverse, 0)
  | _ =>
    match splitOnChar '+' l with
    | [t, off] => (parseOffsetChars ('+' :: off)).map (fun o => (t, o))
    | [t] =>
      match splitOnChar '-' t with
      | [t2, off] => (parseOffsetChars ('-' :: off)).map (fun o => (t2, o))
      | _ => none
    | _ => none

/-- Modelled from the spec: `dateutils.parse_iso_8601_datetime` is not under
`src/`.  Parses `YYYY-MM-DDTHH:MM:SS[.ffffff](Z|±HH:MM)` to a timezone-aware
instant (fractional seconds are accepted and dropped). -/
def parse_iso_8601_datetime (s : String) : Option DateTime :=
  match splitOnChar 'T' s.data with
  | [date, time] =>
    match splitOnChar '-' date with
    | [ys, mos, ds] =>
      match digitsToNat? ys, digitsToNat? mos, digitsToNat? ds with
      | some y, some mo, some d =>
        match splitTimeOffsetChars time with
        | some (hmsFull, off) =>
          match splitOnChar ':' ((splitOnChar '.' hmsFull).headD hmsFull) with
          | [hs, mis, ses] =>
            match digitsToNat? hs, digitsToNat? mis, digitsToNat? ses with
            | some h, some mi, some se =>
              some ⟨y, mo, d, h, mi, se, off⟩
            | _, _, _ => none
          | _ => none
        | none => none
      | _, _, _ => none
    | _ => none
  | _ => none

/-- Presence record.  Modelled from the spec: `hikari.core.model.presence`
is not under `src/`; §3 gives it a status and a list of activities, which we
keep as the raw payload values. -/
structure Presence where
  status : JValue
  activities : JValue

/-- Modelled from the spec: `Presence(payload)` keeps the status and
activities fields of the raw presence payload. -/
def Presence.init (p : Payload) : Presence :=
  ⟨pyGet p "status", pyGet p "activities"⟩

/-- Modelled from the spec: `transform.nullable_cast(v, parse_iso_8601_datetime)`
(`transform` is not under `src/`): `None` maps to no value, a string is
parsed (failing like Python on a malformed string), any other value fails. -/
def premiumCast (v : JValue) : Except PyError (Option DateTime) :=
  match v with
  | .null => .ok none
  | .str s =>
    match parse_iso_8601_datetime s with
    | some d => .ok (some d)
    | none => .error .valueError
  | _ => .error .typeError

/-- Modelled from the spec: `transform.nullable_cast(v, presence.Presence)`:
`None` maps to no value, a mapping constructs a `Presence`, anything else
fails. -/
def presenceCast (v : JValue) : Except PyError (Option Presence) :=
  match v with
  | .null => .ok none
  | .obj fs => .ok (some (Presence.init fs))
  | _ => .error .typeError

/-- The guild-scoped Member record.  The `_user` slot of the Python class is
a shared reference to the registry-owned Canonical User; in this state-passing
embedding the reference is the user's id, and canonical-field reads go
through the registry state (see the delegated read functions below). -/
structure Member where
  userId : Int
  guildId : Int
  roleIds : List Int
  joined_at : DateTime
  nick : JValue
  premium_since : Option DateTime
  presence : Option Presence

/-- The `[int(r) for r in payload.get("roles", ())]` comprehension: an absent
key iterates the empty default, a list coerces every element with `int(...)`,
and a non-iterable value raises `TypeError` (the model does not reproduce
Python's char-wise iteration of strings, which no payload shape uses). -/
def rolesOf (p : Payload) : Except PyError (List Int) :=
  match plookup p "roles" with
  | none => .ok []
  | some (.list xs) => xs.mapM pyInt
  | some _ => .error .typeError

/-- The `dateutils.parse_iso_8601_datetime(payload["joined_at"])` call: the
key is mandatory and its value must be a parsable timestamp string. -/
def joinedAtOf (p : Payload) : Except PyError DateTime :=
  match plookup p "joined_at" with
  | none => .error (.keyError "joined_at")
  | some (.str s) =>
    match parse_iso_8601_datetime s with
    | some d => .ok d
    | none => .error .valueError
  | some _ => .error .typeError

/-- The `premium_since` assignment of `Member.__init__`. -/
def premiumOf (p : Payload) : Except PyError (Option DateTime) :=
  premiumCast (pyGet p "premium_since")

/-- The `presence` assignment of `Member.__init__`. -/
def presenceOf (p : Payload) : Except PyError (Option Presence) :=
  presenceCast (pyGet p "presence")

/-- The guild-local assignments of `Member.__init__`, in source order, once
the nested user payload has been resolved to the shared user `uid`. -/
def memberLocals (uid : Int) (gid : Int) (p : Payload) : Except PyError Member :=
  match rolesOf p with
  | .error e => .error e
  | .ok rs =>
    match joinedAtOf p with
    | .error e => .error e
    | .ok ja =>
      match premiumOf p with
      | .error e => .error e
      | .ok ps =>
        match presenceOf p with
        | .error e => .error e
        | .ok pr =>
          .ok { userId := uid, guildId := gid, roleIds := rs, joined_at := ja,
                nick := pyGet p "nick", premium_since := ps, presence := pr }

/-- The Bot User variant (`BotUser` in `user.py`): the inherited canonical
fields populated by `super().__init__`, plus the `verified` / `mfa_enabled`
flags with `payload.get(..., False)` defaults. -/
structure BotUser where
  user : User
  verified : JValue
  mfa_enabled : JValue

/-- `BotUser.__init__(global_state, payload)`. -/
def BotUser.init (p : Payload) : Except PyError BotUser :=
  match User.init p with
  | .error e => .error e
  | .ok u =>
    .ok { user := u, verified := pyGetD p "verified" (.bool false),
          mfa_enabled := pyGetD p "mfa_enabled" (.bool false) }

/-- Canonical Users keyed by id (first binding wins, as in a dict). -/
def lookupUser (l : List (Int × User)) (uid : Int) : Option User :=
  match l with
  | [] => none
  | (k, u) :: rest => if k = uid then some u else lookupUser rest uid

/-- Replaces the binding of `uid` in place, leaving other bindings alone. -/
def setUser (l : List (Int × User)) (uid : Int) (u2 : User) : List (Int × User) :=
  match l with
  | [] => []
  | (k, u) :: rest => if k = uid then (k, u2) :: rest else (k, u) :: setUser rest uid u2

/-- Members keyed by (guild id, user id). -/
def lookupMember (l : List ((Int × Int) × Member)) (gid uid : Int) : Option Member :=
  match l with
  | [] => none
  | (k, m) :: rest => if k = (gid, uid) then some m else lookupMember rest gid uid

/-- Replaces the binding of `(gid, uid)` in place. -/
def setMember (l : List ((Int × Int) × Member)) (gid uid : Int) (m2 : Member) :
    List ((Int × Int) × Member) :=
  match l with
  | [] => []
  | (k, m) :: rest =>
    if k = (gid, uid) then (k, m2) :: rest else (k, m) :: setMember rest gid uid m2

/-- The Model Cache registry state.  Modelled from the spec:
`hikari.core.model.model_cache` is not under `src/`; §4.3 gives it the
interned Canonical Users keyed by id, the Members keyed by
(guild id, user id), and the single Bot User slot. -/
structure ModelCache where
  users : List (Int × User)
  members : List ((Int × Int) × Member)
  botUser : Option BotUser

/-- The registry with nothing cached. -/
def emptyCache : ModelCache := ⟨[], [], none⟩

/-- `get_user(id)`: pure lookup, no mutation, `none` when absent. -/
def get_user (st : ModelCache) (uid : Int) : Option User :=
  lookupUser st.users uid

/-- `get_member(guild_id, user_id)`: pure lookup, `none` when absent. -/
def get_member (st : ModelCache) (gid uid : Int) : Option Member :=
  lookupMember st.members gid uid

/-- Modelled from the spec (§4.3 partial update, `model_cache` not under
`src/`): applying a fresh payload to an existing Canonical User mutates only
the fields present in the payload; the id is immutable after creation. -/
def User.update (u : User) (p : Payload) : Except PyError User :=
  match (match plookup p "discriminator" with
         | none => Except.ok u.discriminator
         | some v => pyInt v) with
  | .error e => .error e
  | .ok d =>
    .ok { u with
          username := (plookup p "username").getD u.username,
          discriminator := d,
          avatar_hash := (plookup p "avatar").getD u.avatar_hash,
          bot := (plookup p "bot").getD u.bot }

/-- Modelled from the spec: the registry's `parse_user` /
`resolve_or_create_user` operation (§4.3, `model_cache` not under `src/`):
look the id up; if present, apply a partial update and return the existing
shared reference (here, the id into the registry state); if absent, construct
a Canonical User via `User.init` and register it.  On failure the state is
returned untouched (no partial registration, §7). -/
def parse_user (st : ModelCache) (p : Payload) : ModelCache × Except PyError Int :=
  match intField p "id" with
  | .error e => (st, .error e)
  | .ok uid =>
    match get_user st uid with
    | some old =>
      match old.update p with
      | .error e => (st, .error e)
      | .ok u2 => ({ st with users := setUser st.users uid u2 }, .ok uid)
    | none =>
      match User.init p with
      | .error e => (st, .error e)
      | .ok u => ({ st with users := (uid, u) :: st.users }, .ok uid)

/-- The `payload["user"]` access of `Member.__init__`: the key is mandatory
and its value must be a mapping to be parsable as a user. -/
def userPayloadOf (p : Payload) : Except PyError Payload :=
  match pyGetItem p "user" with
  | .error e => .error e
  | .ok (.obj fs) => .ok fs
  | .ok _ => .error .typeError

/-- `Member.__init__(global_state, guild_id, payload)`: the nested user
payload is resolved through the registry's `parse_user` (never by direct
`User` construction), then the guild-local fields are populated.  Python
exception semantics are kept: a mutation `parse_user` already made persists
even when a later assignment raises. -/
def Member.init (st : ModelCache) (gid : Int) (p : Payload) :
    ModelCache × Except PyError Member :=
  match userPayloadOf p with
  | .error e => (st, .error e)
  | .ok up =>
    match parse_user st up with
    | (st2, .error e) => (st2, .error e)
    | (st2, .ok uid) =>
      match memberLocals uid gid p with
      | .error e => (st2, .error e)
      | .ok m => (st2, .ok m)

/-- Modelled from the spec (§4.2 update semantics, the registry's member
update path not being under `src/`): a fresh member payload mutates only the
fields it carries — except presence, which is replaced wholesale. -/
def Member.applyUpdate (m : Member) (p : Payload) : Except PyError Member :=
  match (match plookup p "roles" with
         | none => Except.ok m.roleIds
         | some (.list xs) => xs.mapM pyInt
         | some _ => Except.error PyError.typeError) with
  | .error e => .error e
  | .ok rs =>
    match (match plookup p "premium_since" with
           | none => Except.ok m.premium_since
           | some v => premiumCast v) with
    | .error e => .error e
    | .ok ps =>
      match presenceCast (pyGet p "presence") with
      | .error e => .error e
      | .ok pr =>
        .ok { m with
              roleIds := rs,
              nick := (plookup p "nick").getD m.nick,
              premium_since := ps, presence := pr }

/-- Modelled from the spec: the registry's `resolve_or_create_member`
operation (§4.3, `model_cache` not under `src/`): look up the
(guild id, user id) pair; if present, refresh the canonical user and apply
the partial-update rule; if absent, construct via `Member.init` and register
the new member under the pair. -/
def parse_member (st : ModelCache) (gid : Int) (p : Payload) :
    ModelCache × Except PyError Member :=
  match userPayloadOf p with
  | .error e => (st, .error e)
  | .ok up =>
    match intField up "id" with
    | .error e => (st, .error e)
    | .ok uid =>
      match get_member st gid uid with
      | some old =>
        match parse_user st up with
        | (st2, .error e) => (st2, .error e)
        | (st2, .ok _) =>
          match old.applyUpdate p with
          | .error e => (st2, .error e)
          | .ok m2 => ({ st2 with members := setMember st2.members gid uid m2 }, .ok m2)
      | none =>
        match Member.init st gid p with
        | (st2, .error e) => (st2, .error e)
        | (st2, .ok m) => ({ st2 with members := ((gid, uid), m) :: st2.members }, .ok m)

/-- Modelled from the spec: `set_bot_user(payload)` (§4.3, `model_cache` not
under `src/`): establishes the single distinguished self-account; a second
call in the same process fails loudly with the `DuplicateBotIdentity`
condition and leaves the registry — in particular the previously established
Bot User — exactly as it was. -/
def set_bot_user (st : ModelCache) (p : Payload) : ModelCache × Except PyError BotUser :=
  match st.botUser with
  | some _ => (st, .error .duplicateBotIdentity)
  | none =>
    match BotUser.init p with
    | .error e => (st, .error e)
    | .ok b => ({ st with botUser := some b }, .ok b)

/-- Delegated read of the canonical `id`.  Modelled from the spec: the
`delegate.delegate_members(User, "_user")` decorator is not under `src/`;
§4.2 forwards every canonical-field read transparently to the one shared
Canonical User, which in this embedding lives in the registry state under
the member's `userId`. -/
def Member.readId (st : ModelCache) (m : Member) : Option Int :=
  (get_user st m.userId).map User.id

/-- Delegated read of the canonical `username` (see `Member.readId`). -/
def Member.readUsername (st : ModelCache) (m : Member) : Option JValue :=
  (get_user st m.userId).map User.username

/-- Delegated read of the canonical `discriminator` (see `Member.readId`). -/
def Member.readDiscriminator (st : ModelCache) (m : Member) : Option Int :=
  (get_user st m.userId).map User.discriminator

/-- Delegated read of the canonical `avatar_hash` (see `Member.readId`). -/
def Member.readAvatarHash (st : ModelCache) (m : Member) : Option JValue :=
  (get_user st m.userId).map User.avatar_hash

/-- Delegated read of the canonical `bot` flag (see `Member.readId`). -/
def Member.readBot (st : ModelCache) (m : Member) : Option JValue :=
  (get_user st m.userId).map User.bot

/-- The user payload of the spec's example scenario (§8). -/
def anaUserPayload : Payload :=
  [("id", .str "100"), ("username", .str "Ana"), ("discriminator", .str "1234")]

/-- The member payload of the spec's example scenario (§8). -/
def anaMemberPayload : Payload :=
  [("user", .obj anaUserPayload), ("roles", .list []),
   ("joined_at", .str "2020-01-01T00:00:00+00:00"), ("nick", .null)]

/-- The Canonical User the example scenario caches under id 100. -/
def anaCanonicalUser : User :=
  ⟨100, .str "Ana", 1234, .null, .bool false⟩

example : parse_iso_8601_datetime "2020-01-01T00:00:00+00:00" = some ⟨2020, 1, 1, 0, 0, 0, 0⟩ := rfl
example : parse_iso_8601_datetime "2021-06-03T04:05:06.123456Z" = some ⟨2021, 6, 3, 4, 5, 6, 0⟩ := rfl
example : parse_iso_8601_datetime "2021-06-03T04:05:06-05:30" = some ⟨2021, 6, 3, 4, 5, 6, -330⟩ := rfl
example : parse_iso_8601_datetime "2021-06-03T04:05:06" = none := rfl
example : User.init anaUserPayload = .ok anaCanonicalUser := rfl
example : User.init [("id", .str "5")] = .error (.keyError "discriminator") := rfl
example : parse_user emptyCache [("id", .str "5")] = (emptyCache, .error (.keyError "discriminator")) := rfl
example :
    parse_member emptyCache 7 anaMemberPayload =
      ({ users := [(100, anaCanonicalUser)],
         members := [((7, 100),
           ⟨100, 7, [], ⟨2020, 1, 1, 0, 0, 0, 0⟩, .null, none, none⟩)],
         botUser := none },
       .ok ⟨100, 7, [], ⟨2020, 1, 1, 0, 0, 0, 0⟩, .null, none, none⟩) := rfl

/-- C4: for every raw user payload whose id and discriminator coerce, the
constructed Canonical User carries those two numbers and permissive defaults
for everything else: an absent username is unset (Python `None`), an absent
avatar reference is null, an absent bot flag is `false`; present fields take
their payload values. -/
theorem user_init_permissive_defaults :
    ∀ (p : Payload) (i d : Int),
      intField p "id" = .ok i →
      intField p "discriminator" = .ok d →
      ∃ u, User.init p = .ok u ∧ u.id = i ∧ u.discriminator = d ∧
        (plookup p "username" = none → u.username = .null) ∧
        (plookup p "avatar" = none → u.avatar_hash = .null) ∧
        (plookup p "bot" = none → u.bot = .bool false) ∧
        (∀ v, plookup p "username" = some v → u.username = v) ∧
        (∀ v, plookup p "avatar" = some v → u.avatar_hash = v) ∧
        (∀ v, plookup p "bot" = some v → u.bot = v) := by
  intro p i d hid hdisc
  refine ⟨⟨i, pyGet p "username", d, pyGet p "avatar", pyGetD p "bot" (.bool false)⟩,
    ?_, rfl, rfl, ?_, ?_, ?_, ?_, ?_, ?_⟩
  · simp [User.init, hid, hdisc]
  · intro h; simp [pyGet, h]
  · intro h; simp [pyGet, h]
  · intro h; simp [pyGetD, h]
  · intro v h; simp [pyGet, h]
  · intro v h; simp [pyGet, h]
  · intro v h; simp [pyGetD, h]

/-- C4 witness: a payload with numeric-string id and discriminator and no
other fields yields the permissive defaults. -/
theorem user_init_permissive_defaults_witness :
    (plookup [("id", JValue.num 1), ("discriminator", JValue.str "0007")] "username" = none) ∧
    ∃ u, User.init [("id", JValue.num 1), ("discriminator", JValue.str "0007")] = .ok u ∧
      u.id = 1 ∧ u.discriminator = 7 ∧ u.username = .null ∧ u.avatar_hash = .null ∧
      u.bot = .bool false := by
  have h := user_init_permissive_defaults
    [("id", JValue.num 1), ("discriminator", JValue.str "0007")] 1 7 rfl rfl
  obtain ⟨u, h1, h2, h3, h4, h5, h6, -⟩ := h
  exact ⟨rfl, u, h1, h2, h3, h4 rfl, h5 rfl, h6 rfl⟩

/-- C9: for every payload accepted by `User.init`, constructing a `BotUser`
with the `verified` and `mfa_enabled` keys absent yields both flags `false`,
with the inherited canonical fields exactly as plain `User` construction
populates them. -/
theorem bot_user_init_defaults :
    ∀ (p : Payload) (u : User),
      User.init p = .ok u →
      plookup p "verified" = none →
      plookup p "mfa_enabled" = none →
      BotUser.init p = .ok ⟨u, .bool false, .bool false⟩ := by
  intro p u hu hv hm
  simp [BotUser.init, hu, pyGetD, hv, hm]

/-- C9 witness: constructing a `BotUser` from the example user payload. -/
theorem bot_user_init_defaults_witness :
    BotUser.init anaUserPayload = .ok ⟨anaCanonicalUser, .bool false, .bool false⟩ :=
  bot_user_init_defaults anaUserPayload anaCanonicalUser rfl rfl rfl

theorem pyInt_error_isBuiltin (v : JValue) (e : PyError) (h : pyInt v = .error e) :
    e.isBuiltin = true := by
  cases v with
  | num n => simp [pyInt] at h
  | bool b => simp [pyInt] at h
  | str s =>
    rw [pyInt] at h
    cases hs : pyStrToInt? s <;> rw [hs] at h
    · injection h with h2; rw [← h2]; rfl
    · exact absurd h (by simp)
  | null => injection h with h2; rw [← h2]; rfl
  | list xs => injection h with h2; rw [← h2]; rfl
  | obj fs => injection h with h2; rw [← h2]; rfl

theorem intField_error_isBuiltin (p : Payload) (k : String) (e : PyError)
    (h : intField p k = .error e) : e.isBuiltin = true := by
  rw [intField, pyGetItem] at h
  cases hl : plookup p k with
  | none => simp [hl] at h; cases h; rfl
  | some v => simp [hl] at h; exact pyInt_error_isBuiltin v e h

theorem user_init_error_isBuiltin (p : Payload) (e : PyError)
    (h : User.init p = .error e) : e.isBuiltin = true := by
  rw [User.init] at h
  cases h1 : intField p "id" with
  | error e1 =>
    simp [h1] at h; cases h; exact intField_error_isBuiltin p "id" e h1
  | ok i =>
    simp [h1] at h
    cases h2 : intField p "discriminator" with
    | error e2 =>
      simp [h2] at h; cases h; exact intField_error_isBuiltin p "discriminator" e h2
    | ok d => simp [h2] at h

theorem user_update_error_isBuiltin (u : User) (p : Payload) (e : PyError)
    (h : u.update p = .error e) : e.isBuiltin = true := by
  rw [User.update] at h
  cases hl : plookup p "discriminator" with
  | none => simp [hl] at h
  | some v =>
    simp [hl] at h
    cases hv : pyInt v with
    | error e2 => simp [hv] at h; cases h; exact pyInt_error_isBuiltin v e hv
    | ok d => simp [hv] at h

theorem parse_user_error_cases (st : ModelCache) (p : Payload) (st2 : ModelCache)
    (e : PyError) (h : parse_user st p = (st2, .error e)) :
    st2 = st ∧ e.isBuiltin = true := by
  rw [parse_user] at h
  cases h1 : intField p "id" with
  | error e1 =>
    simp [h1] at h
    exact ⟨h.1.symm, h.2 ▸ intField_error_isBuiltin p "id" e1 h1⟩
  | ok uid =>
    simp [h1] at h
    cases h2 : get_user st uid with
    | some old =>
      simp [h2] at h
      cases h3 : old.update p with
      | error e3 =>
        simp [h3] at h
        exact ⟨h.1.symm, h.2 ▸ user_update_error_isBuiltin old p e3 h3⟩
      | ok u2 => simp [h3] at h
    | none =>
      simp [h2] at h
      cases h3 : User.init p with
      | error e3 =>
        simp [h3] at h
        exact ⟨h.1.symm, h.2 ▸ user_init_error_isBuiltin p e3 h3⟩
      | ok u => simp [h3] at h

/-- C2 counterexample: a user payload with an id but no discriminator makes
`parse_user` fail with the builtin `KeyError`, which is not the
`MalformedPayload` condition the claim names (the repository's error
taxonomy defines no such condition). -/
theorem user_missing_discriminator_counterexample :
    parse_user emptyCache [("id", JValue.str "5")] =
      (emptyCache, .error (.keyError "discriminator")) ∧
    PyError.keyError "discriminator" ≠ PyError.malformedPayload := by
  exact ⟨rfl, by decide⟩

/-- C2 amended: a user payload whose id or discriminator is missing or
uncoercible makes `parse_user` fail with one of the builtin Python error
kinds (`KeyError` / `ValueError` / `TypeError`) — never a `MalformedPayload`
condition, which the code does not define — and leaves the registry
untouched, so no partial cache entry is created; in particular, when the
discriminator key is absent and the id is not already cached, the call fails
with `KeyError` and a subsequent `get_user` for that id still returns
not-found. -/
theorem user_parse_failure_no_partial_entry :
    (∀ (st : ModelCache) (p : Payload) (st2 : ModelCache) (e : PyError),
      parse_user st p = (st2, .error e) →
      st2 = st ∧ e.isBuiltin = true ∧ e ≠ .malformedPayload) ∧
    (∀ (st : ModelCache) (p : Payload) (uid : Int),
      intField p "id" = .ok uid →
      get_user st uid = none →
      plookup p "discriminator" = none →
      parse_user st p = (st, .error (.keyError "discriminator")) ∧
        get_user (parse_user st p).1 uid = none) := by
  constructor
  · intro st p st2 e h
    obtain ⟨h1, h2⟩ := parse_user_error_cases st p st2 e h
    refine ⟨h1, h2, ?_⟩
    intro hbad
    rw [hbad] at h2
    exact absurd h2 (by decide)
  · intro st p uid hid hfresh hnodisc
    have hinit : User.init p = .error (.keyError "discriminator") := by
      rw [User.init]
      simp only [hid]
      simp only [intField, pyGetItem, hnodisc]
    have hfail : parse_user st p = (st, .error (.keyError "discriminator")) := by
      rw [parse_user]
      simp only [hid, hfresh, hinit]
    exact ⟨hfail, by rw [hfail]; exact hfresh⟩

/-- C2 amended witness: the payload with id "5" and no discriminator, against
the empty registry. -/
theorem user_parse_failure_no_partial_entry_witness :
    parse_user emptyCache [("id", JValue.str "5")] =
      (emptyCache, .error (.keyError "discriminator")) ∧
    (PyError.keyError "discriminator").isBuiltin = true ∧
    get_user emptyCache 5 = none := by
  have h2 := user_parse_failure_no_partial_entry.2 emptyCache
    [("id", JValue.str "5")] 5 rfl rfl rfl
  have h1 := (user_parse_failure_no_partial_entry.1 emptyCache
    [("id", JValue.str "5")] emptyCache (.keyError "discriminator") h2.1).2.1
  exact ⟨h2.1, h1, rfl⟩

theorem memberLocals_ok_inv (uid gid : Int) (p : Payload) (m : Member)
    (h : memberLocals uid gid p = .ok m) :
    m.userId = uid ∧ m.guildId = gid ∧ rolesOf p = .ok m.roleIds ∧
    joinedAtOf p = .ok m.joined_at ∧ premiumOf p = .ok m.premium_since ∧
    presenceOf p = .ok m.presence ∧ m.nick = pyGet p "nick" := by
  rw [memberLocals] at h
  cases h1 : rolesOf p <;> rw [h1] at h
  · exact absurd h (by simp)
  cases h2 : joinedAtOf p <;> rw [h2] at h
  · exact absurd h (by simp)
  cases h3 : premiumOf p <;> rw [h3] at h
  · exact absurd h (by simp)
  cases h4 : presenceOf p <;> rw [h4] at h
  · exact absurd h (by simp)
  injection h with h5
  subst h5
  exact ⟨rfl, rfl, rfl, rfl, rfl, rfl, rfl⟩

theorem member_init_ok_inv (st : ModelCache) (gid : Int) (p : Payload)
    (st2 : ModelCache) (m : Member) (h : Member.init st gid p = (st2, .ok m)) :
    ∃ up, userPayloadOf p = .ok up ∧ parse_user st up = (st2, .ok m.userId) ∧
      memberLocals m.userId gid p = .ok m := by
  rw [Member.init] at h
  split at h
  next e heq => exact absurd h (by simp)
  next up heq =>
    split at h
    next st3 e heq2 => exact absurd h (by simp)
    next st3 uid heq2 =>
      split at h
      next e heq3 => exact absurd h (by simp)
      next m2 heq3 =>
        rw [Prod.mk.injEq] at h
        obtain ⟨hst, hm⟩ := h
        injection hm with hm
        subst hst hm
        have huid := (memberLocals_ok_inv uid gid p _ heq3).1
        rw [← huid] at heq2 heq3
        exact ⟨up, heq, heq2, heq3⟩

/-- The payload of a member carrying the same role id twice. -/
def dupRolesPayload : Payload :=
  [("user", .obj [("id", .num 9), ("discriminator", .num 1)]),
   ("roles", .list [ .str "1", .str "1" ]),
   ("joined_at", .str "2020-01-01T00:00:00Z")]

/-- C6 counterexample: a member payload whose roles list carries the id 1
twice yields a Member whose role-id collection is the list `[1, 1]` — the
duplicates are not collapsed, so the collection does not behave as a set. -/
theorem member_roles_duplicates_counterexample :
    ∃ st m, Member.init emptyCache 3 dupRolesPayload = (st, .ok m) ∧
      m.roleIds = [1, 1] ∧ ¬ m.roleIds.Nodup := by
  refine ⟨_, _, rfl, rfl, ?_⟩
  decide

/-- C6 amended: a Member's role-id collection is a plain list: construction
maps `int(...)` over the payload's roles list, preserving order and keeping
any duplicate ids. -/
theorem member_roles_list_preserved :
    ∀ (st : ModelCache) (gid : Int) (p : Payload) (st2 : ModelCache) (m : Member)
      (xs : List JValue) (rs : List Int),
      plookup p "roles" = some (.list xs) →
      xs.mapM pyInt = .ok rs →
      Member.init st gid p = (st2, .ok m) →
      m.roleIds = rs := by
  intro st gid p st2 m xs rs hx hmap h
  obtain ⟨up, -, -, hml⟩ := member_init_ok_inv st gid p st2 m h
  have hroles := (memberLocals_ok_inv m.userId gid p m hml).2.2.1
  simp only [rolesOf, hx] at hroles
  rw [hmap] at hroles
  injection hroles with h2
  exact h2.symm

/-- C6 amended witness: the duplicate-roles payload maps to `[1, 1]`. -/
theorem member_roles_list_preserved_witness :
    ∃ st m, Member.init emptyCache 3 dupRolesPayload = (st, .ok m) ∧ m.roleIds = [1, 1] := by
  refine ⟨_, _, rfl, ?_⟩
  exact member_roles_list_preserved emptyCache 3 dupRolesPayload _ _
    [ .str "1", .str "1" ] [1, 1] rfl rfl rfl

theorem lookupUser_setUser (l : List (Int × User)) (uid : Int) (u2 old : User)
    (h : lookupUser l uid = some old) : lookupUser (setUser l uid u2) uid = some u2 := by
  induction l with
  | nil => simp [lookupUser] at h
  | cons kv rest ih =>
    obtain ⟨k, u⟩ := kv
    by_cases hk : k = uid
    · subst hk; simp [lookupUser, setUser]
    · rw [lookupUser, if_neg hk] at h
      rw [setUser, if_neg hk, lookupUser, if_neg hk]
      exact ih h

theorem parse_user_ok_registered (st : ModelCache) (p : Payload) (st2 : ModelCache)
    (uid : Int) (h : parse_user st p = (st2, .ok uid)) :
    (get_user st2 uid).isSome = true := by
  rw [parse_user] at h
  split at h
  next e heq => exact absurd h (by simp)
  next uid2 heq =>
    split at h
    next old heq2 =>
      split at h
      next e heq3 => exact absurd h (by simp)
      next u2 heq3 =>
        rw [Prod.mk.injEq] at h
        obtain ⟨hst, hu⟩ := h
        injection hu with hu
        subst hst hu
        have := lookupUser_setUser st.users uid2 u2 old heq2
        simp [get_user, this]
    next heq2 =>
      split at h
      next e heq3 => exact absurd h (by simp)
      next u heq3 =>
        rw [Prod.mk.injEq] at h
        obtain ⟨hst, hu⟩ := h
        injection hu with hu
        subst hst hu
        simp [get_user, lookupUser]

/-- C5: successful Member construction resolves the nested user payload
through the registry's get-or-create operation `parse_user` — the member's
user reference is exactly the one `parse_user` returns on the nested
payload, the registry transition is exactly `parse_user`'s, and the
referenced Canonical User is registered afterwards — so Member construction
is never an independent creation path for Canonical Users. -/
theorem member_construction_via_registry :
    ∀ (st : ModelCache) (gid : Int) (p : Payload) (st2 : ModelCache) (m : Member),
      Member.init st gid p = (st2, .ok m) →
      ∃ up, userPayloadOf p = .ok up ∧
        parse_user st up = (st2, .ok m.userId) ∧
        (get_user st2 m.userId).isSome = true := by
  intro st gid p st2 m h
  obtain ⟨up, h1, h2, h3⟩ := member_init_ok_inv st gid p st2 m h
  exact ⟨up, h1, h2, parse_user_ok_registered st up st2 m.userId h2⟩

/-- The timestamp of the example scenario. -/
def anaJoined : DateTime := ⟨2020, 1, 1, 0, 0, 0, 0⟩

/-- The Member the example scenario constructs for guild 7. -/
def anaMemberRec : Member := ⟨100, 7, [], anaJoined, .null, none, none⟩

/-- The registry state right after the example Member is constructed (the
member itself is registered by `parse_member`, not by `Member.init`). -/
def anaCacheAfterInit : ModelCache := ⟨[(100, anaCanonicalUser)], [], none⟩

/-- C5 witness: the example scenario's member payload against the empty
registry. -/
theorem member_construction_via_registry_witness :
    ∃ up, userPayloadOf anaMemberPayload = .ok up ∧
      parse_user emptyCache up = (anaCacheAfterInit, .ok anaMemberRec.userId) ∧
      (get_user anaCacheAfterInit anaMemberRec.userId).isSome = true :=
  member_construction_via_registry emptyCache 7 anaMemberPayload
    anaCacheAfterInit anaMemberRec rfl

/-- C1: reading any canonical field (id, username, discriminator, avatar
reference, bot flag) through a Member returns exactly the wrapped Canonical
User's value, and any two Members wrapping the same user id observe
identical canonical-field values in every registry state — in particular
after any update to either, since updates only change the state both reads
go through. -/
theorem member_delegates_canonical_fields :
    (∀ (st : ModelCache) (m : Member) (u : User),
      get_user st m.userId = some u →
      Member.readId st m = some u.id ∧
      Member.readUsername st m = some u.username ∧
      Member.readDiscriminator st m = some u.discriminator ∧
      Member.readAvatarHash st m = some u.avatar_hash ∧
      Member.readBot st m = some u.bot) ∧
    (∀ (st : ModelCache) (m1 m2 : Member),
      m1.userId = m2.userId →
      Member.readId st m1 = Member.readId st m2 ∧
      Member.readUsername st m1 = Member.readUsername st m2 ∧
      Member.readDiscriminator st m1 = Member.readDiscriminator st m2 ∧
      Member.readAvatarHash st m1 = Member.readAvatarHash st m2 ∧
      Member.readBot st m1 = Member.readBot st m2) := by
  constructor
  · intro st m u h
    simp [Member.readId, Member.readUsername, Member.readDiscriminator,
          Member.readAvatarHash, Member.readBot, h]
  · intro st m1 m2 h
    simp [Member.readId, Member.readUsername, Member.readDiscriminator,
          Member.readAvatarHash, Member.readBot, h]

/-- The example Member viewed from another guild, wrapping the same user. -/
def anaMemberRecOther : Member := ⟨100, 8, [], anaJoined, .null, none, none⟩

/-- C1 witness: the two guild views of user 100 read the same canonical
username, which is the cached user's. -/
theorem member_delegates_canonical_fields_witness :
    Member.readUsername anaCacheAfterInit anaMemberRec = some anaCanonicalUser.username ∧
    Member.readUsername anaCacheAfterInit anaMemberRec =
      Member.readUsername anaCacheAfterInit anaMemberRecOther :=
  ⟨(member_delegates_canonical_fields.1 anaCacheAfterInit anaMemberRec
      anaCanonicalUser rfl).2.1,
   (member_delegates_canonical_fields.2 anaCacheAfterInit anaMemberRec
      anaMemberRecOther rfl).2.1⟩

/-- C3: once a Bot User is established, a second `set_bot_user` call fails
with the `DuplicateBotIdentity` condition and returns the registry exactly
as it was — the previously established Bot User is never overwritten. -/
theorem set_bot_user_singleton :
    ∀ (st : ModelCache) (p : Payload) (b0 : BotUser),
      st.botUser = some b0 →
      set_bot_user st p = (st, .error .duplicateBotIdentity) ∧
      (set_bot_user st p).1.botUser = some b0 := by
  intro st p b0 h
  have h2 : set_bot_user st p = (st, .error .duplicateBotIdentity) := by
    rw [set_bot_user]
    simp only [h]
  exact ⟨h2, by rw [h2]; exact h⟩

/-- A registry that already holds a Bot User. -/
def botCache : ModelCache :=
  ⟨[], [], some ⟨anaCanonicalUser, .bool false, .bool false⟩⟩

/-- C3 witness: a second `set_bot_user` against `botCache`. -/
theorem set_bot_user_singleton_witness :
    set_bot_user botCache [] = (botCache, .error .duplicateBotIdentity) ∧
    (set_bot_user botCache []).1.botUser =
      some ⟨anaCanonicalUser, .bool false, .bool false⟩ :=
  set_bot_user_singleton botCache [] ⟨anaCanonicalUser, .bool false, .bool false⟩ rfl

/-- C7: a successfully constructed Member's `joined_at` is the parse of the
payload's ISO-8601 string into a timezone-aware instant (every `DateTime`
carries its UTC offset), an absent or null `premium_since` leaves the field
with no value — never an epoch default — and a present `premium_since`
string is likewise parsed to a timezone-aware instant held by the field. -/
theorem member_timestamps :
    ∀ (st : ModelCache) (gid : Int) (p : Payload) (st2 : ModelCache) (m : Member),
      Member.init st gid p = (st2, .ok m) →
      (∃ s, plookup p "joined_at" = some (.str s) ∧
        parse_iso_8601_datetime s = some m.joined_at) ∧
      (pyGet p "premium_since" = .null → m.premium_since = none) ∧
      (∀ s, plookup p "premium_since" = some (.str s) →
        ∃ d, parse_iso_8601_datetime s = some d ∧ m.premium_since = some d) := by
  intro st gid p st2 m h
  obtain ⟨up, -, -, hml⟩ := member_init_ok_inv st gid p st2 m h
  obtain ⟨-, -, -, hja, hps, -, -⟩ := memberLocals_ok_inv m.userId gid p m hml
  refine ⟨?_, ?_, ?_⟩
  · rw [joinedAtOf] at hja
    split at hja
    next heq => exact absurd hja (by simp)
    next s heq =>
      refine ⟨s, heq, ?_⟩
      split at hja
      next d heq2 => injection hja with h2; rw [heq2, h2]
      next heq2 => exact absurd hja (by simp)
    next v heq hne => exact absurd hja (by simp)
  · intro hnull
    rw [premiumOf, hnull] at hps
    rw [premiumCast] at hps
    injection hps with h2
    exact h2.symm
  · intro s hs
    rw [premiumOf] at hps
    simp only [pyGet, hs, Option.getD] at hps
    rw [premiumCast] at hps
    split at hps
    next d heq =>
      injection hps with h2
      exact ⟨d, heq, h2.symm⟩
    next heq => exact absurd hps (by simp)

/-- A member payload that carries a `premium_since` timestamp string. -/
def premiumMemberPayload : Payload :=
  [("user", .obj [("id", .num 9), ("discriminator", .num 1)]),
   ("joined_at", .str "2020-01-01T00:00:00Z"),
   ("premium_since", .str "2021-02-03T04:05:06+01:00")]

/-- The Member constructed from `premiumMemberPayload` for guild 4. -/
def premiumMemberRec : Member :=
  ⟨9, 4, [], ⟨2020, 1, 1, 0, 0, 0, 0⟩, .null, some ⟨2021, 2, 3, 4, 5, 6, 60⟩, none⟩

/-- The registry state after constructing `premiumMemberRec`. -/
def premiumCacheAfter : ModelCache :=
  ⟨[(9, ⟨9, .null, 1, .null, .bool false⟩)], [], none⟩

/-- C7 witness: the example payload's `joined_at` string with its absent
`premium_since`, and a payload whose present `premium_since` string is
parsed into the field. -/
theorem member_timestamps_witness :
    ((∃ s, plookup anaMemberPayload "joined_at" = some (.str s) ∧
       parse_iso_8601_datetime s = some anaMemberRec.joined_at) ∧
     anaMemberRec.premium_since = none) ∧
    (∃ d, parse_iso_8601_datetime "2021-02-03T04:05:06+01:00" = some d ∧
      premiumMemberRec.premium_since = some d) :=
  ⟨⟨(member_timestamps emptyCache 7 anaMemberPayload anaCacheAfterInit
       anaMemberRec rfl).1,
    (member_timestamps emptyCache 7 anaMemberPayload anaCacheAfterInit
       anaMemberRec rfl).2.1 rfl⟩,
   (member_timestamps emptyCache 4 premiumMemberPayload premiumCacheAfter
       premiumMemberRec rfl).2.2 "2021-02-03T04:05:06+01:00" rfl⟩

/-- C10: Member construction is total in its optional guild-scoped fields:
with a valid nested user and `joined_at`, an absent roles key yields an
empty role-id list, an absent nick yields no nickname (Python `None`), and
an absent presence key yields no Presence — with no error raised. -/
theorem member_init_optional_defaults :
    ∀ (st : ModelCache) (gid : Int) (p up : Payload) (st2 : ModelCache)
      (uid : Int) (ja : DateTime),
      userPayloadOf p = .ok up →
      parse_user st up = (st2, .ok uid) →
      joinedAtOf p = .ok ja →
      plookup p "roles" = none →
      plookup p "nick" = none →
      plookup p "premium_since" = none →
      plookup p "presence" = none →
      Member.init st gid p = (st2, .ok ⟨uid, gid, [], ja, .null, none, none⟩) := by
  intro st gid p up st2 uid ja hup hpu hja hr hn hps hpr
  have hml : memberLocals uid gid p = .ok ⟨uid, gid, [], ja, .null, none, none⟩ := by
    rw [memberLocals]
    simp only [rolesOf, hr, hja, premiumOf, presenceOf, pyGet, hps, hpr, hn,
      Option.getD, premiumCast, presenceCast]
  rw [Member.init]
  simp only [hup, hpu, hml]

/-- A member payload carrying only the mandatory user and join timestamp. -/
def bareMemberPayload : Payload :=
  [("user", .obj anaUserPayload), ("joined_at", .str "2020-01-01T00:00:00Z")]

/-- C10 witness: the bare member payload constructs with the defaults. -/
theorem member_init_optional_defaults_witness :
    Member.init emptyCache 5 bareMemberPayload =
      (anaCacheAfterInit, .ok ⟨100, 5, [], anaJoined, .null, none, none⟩) :=
  member_init_optional_defaults emptyCache 5 bareMemberPayload anaUserPayload
    anaCacheAfterInit 100 anaJoined rfl rfl rfl rfl rfl rfl rfl

/-- C8: processing the spec's example payload for guild 7 yields a Member
whose delegated username reads "Ana", whose nick is absent (Python `None`),
and which `get_member(7, 100)` returns as the very entry the registry
stored. -/
theorem ana_scenario :
    ∃ st m, parse_member emptyCache 7 anaMemberPayload = (st, .ok m) ∧
      Member.readUsername st m = some (.str "Ana") ∧
      m.nick = .null ∧
      get_member st 7 100 = some m := by
  exact ⟨⟨[(100, anaCanonicalUser)], [((7, 100), anaMemberRec)], none⟩,
    anaMemberRec, rfl, rfl, rfl, rfl⟩

end Hikari
